import Mathlib

/-!
Verification development for the SolarRally EV-charging dashboard core:
a shallow embedding of the per-unit mock telemetry generator, the fleet
statistics aggregation, the per-session cost derivation, and the
live-data consumer's unit-identification logic.

JavaScript numbers are embedded as rationals (`ℚ`); `Math.round` and
`toFixed`/`Math.round(x*10^k)/10^k` rounding are modelled explicitly.
-/

namespace SolarRally

/-- Lifecycle status of one EVSE unit, the five-valued `status` field of
every telemetry record. -/
inductive UnitStatus
  | available
  | preparing
  | charging
  | finishing
  | faulted
deriving DecidableEq, Repr

/-- Active energy source of a telemetry record (`energy_source` field). -/
inductive EnergySource
  | solar
  | grid
  | none
deriving DecidableEq, Repr

/-- JavaScript `Math.round`: round half toward positive infinity.
`Number.prototype.toFixed` resolves ties the same way (pick the larger
candidate), so one helper models both. -/
def jsRound (x : ℚ) : ℤ := ⌊x + 1 / 2⌋

/-- Rounding a rational to `k` decimal places, the
`Math.round(x * 10^k) / 10^k` and `Number(x.toFixed(k))` pattern used
throughout the dashboard code. -/
def roundTo (k : ℕ) (x : ℚ) : ℚ := (jsRound (x * 10 ^ k) : ℚ) / 10 ^ k

/-- One telemetry record, the `TelemetryData` interface shared by the
dashboard components, together with the optional `unit_id` field that the
mock generator adds and the websocket consumer reads
(`TelemetryData & { unit_id?: string }`). Absent JS fields are `none`. -/
structure TelemetryData where
  session_id : Option String
  voltage_v : ℚ
  current_a : ℚ
  power_w : ℚ
  session_energy_kwh_solar : ℚ
  session_energy_kwh_grid : ℚ
  session_total_energy_kwh : ℚ
  energy_source : EnergySource
  temperature_c : ℚ
  status : UnitStatus
  unit_id : Option String
deriving DecidableEq, Repr

/-- Fleet-level statistics, the `SystemStats` interface (the
`last_updated` wall-clock string is omitted: it is `new Date()` at call
time and carries no data derived from the units). -/
structure SystemStats where
  total_power_w : ℚ
  total_solar_energy_kwh : ℚ
  total_grid_energy_kwh : ℚ
  total_energy_kwh : ℚ
  avg_temperature_c : ℚ
  solar_percentage : ℚ
  active_sessions : ℕ
  available_units : ℕ
  charging_units : ℕ
  faulted_units : ℕ
deriving DecidableEq, Repr

/-- JavaScript truthiness of the `session_id` field: `t.session_id ? 1 : 0`
counts a session only when the field is a non-empty string. -/
def sessionTruthy (t : TelemetryData) : Bool :=
  match t.session_id with
  | Option.none => false
  | Option.some s => !(s == "")

/-- Accumulator of the `reduce` inside `calculateSystemStats`
(`useWebSocket.tsx`): running sums of power, the two energy buckets and
temperature, plus the four status counters. -/
structure StatsAcc where
  total_power_w : ℚ
  total_solar_energy_kwh : ℚ
  total_grid_energy_kwh : ℚ
  total_temperature_c : ℚ
  active_sessions : ℕ
  available_units : ℕ
  charging_units : ℕ
  faulted_units : ℕ
deriving DecidableEq, Repr

/-- One step of the `reduce` in `calculateSystemStats`: add the unit's
telemetry values to the accumulator. -/
def statsStep (acc : StatsAcc) (t : TelemetryData) : StatsAcc :=
  { total_power_w := acc.total_power_w + t.power_w
    total_solar_energy_kwh :=
      acc.total_solar_energy_kwh + t.session_energy_kwh_solar
    total_grid_energy_kwh :=
      acc.total_grid_energy_kwh + t.session_energy_kwh_grid
    total_temperature_c := acc.total_temperature_c + t.temperature_c
    active_sessions := acc.active_sessions + (if sessionTruthy t then 1 else 0)
    available_units :=
      acc.available_units + (if t.status = UnitStatus.available then 1 else 0)
    charging_units :=
      acc.charging_units + (if t.status = UnitStatus.charging then 1 else 0)
    faulted_units :=
      acc.faulted_units + (if t.status = UnitStatus.faulted then 1 else 0) }

/-- Initial accumulator of the `reduce` in `calculateSystemStats`. -/
def initAcc : StatsAcc := ⟨0, 0, 0, 0, 0, 0, 0, 0⟩

/-- Shared solar-percentage expression
`total_energy > 0 ? (solar / total_energy) * 100 : 0`, written
identically in `calculateSystemStats`, `generateMockData` and
`EnergySourceIndicator`. -/
def solarPercentageOf (solar grid : ℚ) : ℚ :=
  let total := solar + grid
  if 0 < total then solar / total * 100 else 0

/-- Embedding of `calculateSystemStats` (`useWebSocket.tsx` lines
184-244). The argument list is the value list of the `Map` of units, each
contributing its latest telemetry. The empty fleet returns the all-zero
record; otherwise the `reduce` runs and the derived fields are rounded
exactly as in the source (`Math.round`, `toFixed(4)`, `toFixed(1)`). -/
def calculateSystemStats (units : List TelemetryData) : SystemStats :=
  if units.isEmpty then
    ⟨0, 0, 0, 0, 0, 0, 0, 0, 0, 0⟩
  else
    let stats := units.foldl statsStep initAcc
    let total_energy_kwh :=
      stats.total_solar_energy_kwh + stats.total_grid_energy_kwh
    { total_power_w := (jsRound stats.total_power_w : ℚ)
      total_solar_energy_kwh := roundTo 4 stats.total_solar_energy_kwh
      total_grid_energy_kwh := roundTo 4 stats.total_grid_energy_kwh
      total_energy_kwh := roundTo 4 total_energy_kwh
      avg_temperature_c :=
        roundTo 1 (stats.total_temperature_c / (units.length : ℚ))
      solar_percentage :=
        roundTo 1 (solarPercentageOf stats.total_solar_energy_kwh
          stats.total_grid_energy_kwh)
      active_sessions := stats.active_sessions
      available_units := stats.available_units
      charging_units := stats.charging_units
      faulted_units := stats.faulted_units }

/-- One entry of the `scenarios` array built inside `generateMockData`
(`useFirebaseData.tsx` lines 48-70): a status, the voltage and current
ranges `[lo, hi]`, the weighted list of energy sources, and the session
id (`sess_<1000..9999>` string or `null`). -/
structure Scen where
  status : UnitStatus
  voltageLo : ℚ
  voltageHi : ℚ
  currentLo : ℚ
  currentHi : ℚ
  energySource : List EnergySource
  sessionId : Option String
deriving DecidableEq, Repr

/-- Scenario list of `generateMockData`. The two random session numbers
(`Math.floor(Math.random() * 9000) + 1000`) are passed in as the floors
`n0` and `n2`, drawn once when the array is built. -/
def scens (n0 n2 : ℕ) : List Scen :=
  [ ⟨UnitStatus.charging, 220, 240, 15, 32,
      [EnergySource.solar, EnergySource.grid, EnergySource.solar],
      Option.some ("sess_" ++ toString (1000 + n0))⟩,
    ⟨UnitStatus.available, 220, 240, 0, 0, [EnergySource.none], Option.none⟩,
    ⟨UnitStatus.preparing, 220, 240, 0, 5, [EnergySource.solar],
      Option.some ("sess_" ++ toString (1000 + n2))⟩ ]

/-- Random-array indexing `Math.floor(r * n)` for a draw `r`; for
`r ∈ [0, 1)` the result is in `[0, n-1]`. -/
def jsFloorIdx (r : ℚ) (n : ℕ) : ℕ := (⌊r * (n : ℚ)⌋).toNat

/-- Fallback element for out-of-range list access (JS would yield
`undefined`); unreachable for draws in `[0, 1)`. -/
def fallbackScen : Scen :=
  ⟨UnitStatus.available, 0, 0, 0, 0, [], Option.none⟩

/-- Explicit random draws of one `generateTelemetry` call, each field one
`Math.random()` result, in call order: scenario pick, voltage, current,
source pick, session time, temperature, unit-id pick. -/
structure MockDraws where
  rScen : ℚ
  rVoltage : ℚ
  rCurrent : ℚ
  rSource : ℚ
  rTime : ℚ
  rTemp : ℚ
  rUnit : ℚ
deriving DecidableEq, Repr

/-- The scenario selected by
`scenarios[Math.floor(Math.random() * scenarios.length)]`. -/
def pickedScen (scs : List Scen) (d : MockDraws) : Scen :=
  scs.getD (jsFloorIdx d.rScen scs.length) fallbackScen

/-- The energy source selected by
`scenario.energySource[Math.floor(Math.random() * scenario.energySource.length)]`. -/
def pickedSource (scs : List Scen) (d : MockDraws) : EnergySource :=
  (pickedScen scs d).energySource.getD
    (jsFloorIdx d.rSource (pickedScen scs d).energySource.length)
    EnergySource.none

/-- The local `voltage` of `generateTelemetry`:
`Math.random() * (hi - lo) + lo` over the scenario's voltage range. -/
def mockVoltage (scs : List Scen) (d : MockDraws) : ℚ :=
  d.rVoltage * ((pickedScen scs d).voltageHi - (pickedScen scs d).voltageLo)
    + (pickedScen scs d).voltageLo

/-- The local `current` of `generateTelemetry` over the scenario's
current range. -/
def mockCurrent (scs : List Scen) (d : MockDraws) : ℚ :=
  d.rCurrent * ((pickedScen scs d).currentHi - (pickedScen scs d).currentLo)
    + (pickedScen scs d).currentLo

/-- The local `power = voltage * current` of `generateTelemetry`. -/
def mockPower (scs : List Scen) (d : MockDraws) : ℚ :=
  mockVoltage scs d * mockCurrent scs d

/-- The local `sessionTime = Math.random() * 2.4 + 0.1` of
`generateTelemetry`. -/
def mockSessionTime (d : MockDraws) : ℚ := d.rTime * (12 / 5) + 1 / 10

/-- The local `energyRate = power / 1000` of `generateTelemetry`. -/
def mockEnergyRate (scs : List Scen) (d : MockDraws) : ℚ :=
  mockPower scs d / 1000

/-- The unrounded `solarEnergy` of `generateTelemetry`: the full
`sessionTime * energyRate` for a solar source, a 20% share for a grid
source, `0` otherwise. -/
def mockSolarRaw (scs : List Scen) (d : MockDraws) : ℚ :=
  match pickedSource scs d with
  | EnergySource.solar => mockSessionTime d * mockEnergyRate scs d
  | EnergySource.grid => mockSessionTime d * mockEnergyRate scs d * (1 / 5)
  | EnergySource.none => 0

/-- The unrounded `gridEnergy` of `generateTelemetry`: a 10% extra for a
solar source, an 80% share for a grid source, `0` otherwise. -/
def mockGridRaw (scs : List Scen) (d : MockDraws) : ℚ :=
  match pickedSource scs d with
  | EnergySource.solar => mockSessionTime d * mockEnergyRate scs d * (1 / 10)
  | EnergySource.grid => mockSessionTime d * mockEnergyRate scs d * (4 / 5)
  | EnergySource.none => 0

/-- Embedding of `generateTelemetry` (`useFirebaseData.tsx` lines 72-107)
with every `Math.random()` draw made an explicit input. Reported values
are rounded exactly as in the source (2, 4 and 1 decimal places). -/
def generateTelemetry (scs : List Scen) (d : MockDraws) : TelemetryData :=
  { session_id := (pickedScen scs d).sessionId
    voltage_v := roundTo 2 (mockVoltage scs d)
    current_a := roundTo 2 (mockCurrent scs d)
    power_w := roundTo 2 (mockPower scs d)
    session_energy_kwh_solar := roundTo 4 (mockSolarRaw scs d)
    session_energy_kwh_grid := roundTo 4 (mockGridRaw scs d)
    session_total_energy_kwh := roundTo 4 (mockSolarRaw scs d + mockGridRaw scs d)
    energy_source := pickedSource scs d
    temperature_c := roundTo 1 (d.rTemp * 25 + 20)
    status := (pickedScen scs d).status
    unit_id := Option.some ("evse_unit_" ++ toString (jsFloorIdx d.rUnit 3 + 1)) }

/-- Embedding of the system-stats block of `generateMockData`
(`useFirebaseData.tsx` lines 120-155): the `forEach` accumulation of
sums and counters over the generated units, with `faulted_units`
hard-coded to `0` and `avg_temperature_c` computed from a fresh random
draw `r` (`Math.random() * 10 + 25`), not from the units. -/
def mockSystemStats (units : List TelemetryData) (r : ℚ) : SystemStats :=
  let totalPower := (units.map TelemetryData.power_w).sum
  let totalSolar := (units.map TelemetryData.session_energy_kwh_solar).sum
  let totalGrid := (units.map TelemetryData.session_energy_kwh_grid).sum
  { total_power_w := (jsRound totalPower : ℚ)
    total_solar_energy_kwh := roundTo 4 totalSolar
    total_grid_energy_kwh := roundTo 4 totalGrid
    total_energy_kwh := roundTo 4 (totalSolar + totalGrid)
    avg_temperature_c := roundTo 1 (r * 10 + 25)
    solar_percentage := roundTo 1 (solarPercentageOf totalSolar totalGrid)
    active_sessions := units.countP (fun t => sessionTruthy t)
    available_units :=
      units.countP (fun t => decide (t.status = UnitStatus.available))
    charging_units :=
      units.countP (fun t => decide (t.status = UnitStatus.charging))
    faulted_units := 0 }

namespace SessionInfo

/-- Solar tariff, the SOLAR_RATE constant of 10 JM$/kWh in `SessionInfo.tsx`. -/
def SOLAR_RATE : ℚ := 10

/-- Grid tariff, `GRID_RATE = 50` JM$/kWh in `SessionInfo.tsx`. -/
def GRID_RATE : ℚ := 50

/-- The `solarCost` shown by `SessionInfo`. -/
def solarCost (t : TelemetryData) : ℚ :=
  t.session_energy_kwh_solar * SOLAR_RATE

/-- The `gridCost` shown by `SessionInfo`. -/
def gridCost (t : TelemetryData) : ℚ :=
  t.session_energy_kwh_grid * GRID_RATE

/-- The `totalCost` shown by `SessionInfo`: sum of the two per-bucket
costs, never stored. -/
def totalCost (t : TelemetryData) : ℚ := solarCost t + gridCost t

/-- The all-grid comparison cost of `SessionInfo`. -/
def allGridCost (t : TelemetryData) : ℚ :=
  t.session_total_energy_kwh * GRID_RATE

/-- The `savings` figure of `SessionInfo`. -/
def savings (t : TelemetryData) : ℚ := allGridCost t - totalCost t

end SessionInfo

namespace StatsGrid

/-- The `solarCostJMD = total_solar_energy_kwh * 10` of the fleet-level
`StatsGrid`. -/
def solarCostJMD (s : SystemStats) : ℚ := s.total_solar_energy_kwh * 10

/-- The `gridCostJMD = total_grid_energy_kwh * 50` of the fleet-level
`StatsGrid`. -/
def gridCostJMD (s : SystemStats) : ℚ := s.total_grid_energy_kwh * 50

/-- The `totalCostJMD` of the fleet-level `StatsGrid`: recomputed sum of
the two bucket costs. -/
def totalCostJMD (s : SystemStats) : ℚ := solarCostJMD s + gridCostJMD s

end StatsGrid

namespace EnergySourceIndicator

/-- The `totalEnergy` of `EnergySourceIndicator`. -/
def totalEnergy (t : TelemetryData) : ℚ :=
  t.session_energy_kwh_solar + t.session_energy_kwh_grid

/-- The `solarPercentage` of `EnergySourceIndicator` (unrounded; it
drives the progress-bar width). -/
def solarPercentage (t : TelemetryData) : ℚ :=
  solarPercentageOf t.session_energy_kwh_solar t.session_energy_kwh_grid

/-- The `gridPercentage` of `EnergySourceIndicator`. -/
def gridPercentage (t : TelemetryData) : ℚ :=
  if 0 < totalEnergy t then
    t.session_energy_kwh_grid / totalEnergy t * 100
  else 0

end EnergySourceIndicator

/-- Splitting a character list at every occurrence of the separator,
modelling JavaScript `String.prototype.split` with a one-character
separator (empty pieces are kept, as in JS). -/
def splitChar (c : Char) : List Char → List (List Char)
  | [] => [[]]
  | x :: xs =>
    let r := splitChar c xs
    if x = c then [] :: r
    else
      match r with
      | [] => [[x]]
      | h :: t => (x :: h) :: t

/-- JavaScript `s.split('_')` on a string. -/
def splitOnUnderscore (s : String) : List String :=
  (splitChar '_' s.data).map (fun l => String.mk l)

/-- JavaScript falsiness of an optional string field: `!data.unit_id` is
true for an absent field and for the empty string. -/
def optFalsy (o : Option String) : Bool :=
  match o with
  | Option.none => true
  | Option.some s => s == ""

/-- The initializer `data.unit_id || 'evse_unit_01'` of the websocket
consumer: the carried unit id when it is a non-empty string, else the
default. -/
def baseUnitId (o : Option String) : String :=
  match o with
  | Option.none => "evse_unit_01"
  | Option.some s => if s = "" then "evse_unit_01" else s

/-- JavaScript `String(n).padStart(2, '0')` for the rotated unit number. -/
def pad2 (n : ℕ) : String :=
  if n < 10 then "0" ++ toString n else toString n

/-- Embedding of the unit-identification logic of the websocket
consumer's `onmessage` handler (`useWebSocket.tsx` lines 264-281):
start from `data.unit_id || 'evse_unit_01'`; when `unit_id` is falsy and
`session_id` truthy, split the session id on underscores and either
extract an `evse_unit_XX` prefix (JS renders a missing third part as the
string "undefined") or, for a `sess_`-style id, rotate the assumed unit
every 5 seconds from the current time `Date.now()` in milliseconds. -/
def deriveUnitId (data : TelemetryData) (nowMs : ℕ) : String :=
  if optFalsy data.unit_id && sessionTruthy data then
    let parts := splitOnUnderscore (data.session_id.getD "")
    if 2 ≤ parts.length then
      if parts.getD 0 "" = "evse" ∧ parts.getD 1 "" = "unit" then
        parts.getD 0 "" ++ "_" ++ parts.getD 1 "" ++ "_"
          ++ parts.getD 2 "undefined"
      else if parts.getD 0 "" = "sess" then
        "evse_unit_" ++ pad2 (nowMs / 5000 % 3 + 1)
      else baseUnitId data.unit_id
    else baseUnitId data.unit_id
  else baseUnitId data.unit_id

/-- Modelled from the spec: the Power Curve Model of §4.2. The backend
publisher implementing it (`mock_evse_publisher.py`, "power tapers from
100% to 20% as battery fills (80-100%)") is not under `src/`; this
definition follows the spec's words: `0` outside the `charging` phase,
`nominal_power` for `elapsed_fraction < 0.8`, the linear taper
`nominal_power * (1 - 4 * (elapsed_fraction - 0.8))` clamped below at
`0.2 * nominal_power` on `[0.8, 1.0]`, and a defensive clamp to `0`
beyond `1.0`. -/
def powerCurve (phase : UnitStatus) (elapsedFraction nominalPower : ℚ) : ℚ :=
  if phase = UnitStatus.charging then
    if elapsedFraction < 4 / 5 then nominalPower
    else if elapsedFraction ≤ 1 then
      max (nominalPower * (1 - 4 * (elapsedFraction - 4 / 5)))
        (nominalPower / 5)
    else 0
  else 0

lemma jsRound_zero : jsRound 0 = 0 := by
  unfold jsRound
  norm_num

lemma roundTo_zero (k : ℕ) : roundTo k 0 = 0 := by
  unfold roundTo
  rw [zero_mul, jsRound_zero]
  simp

lemma roundTo_one_nonneg (x : ℚ) (hx : 0 ≤ x) : 0 ≤ roundTo 1 x := by
  unfold roundTo jsRound
  have h : (0 : ℤ) ≤ ⌊x * 10 ^ 1 + 1 / 2⌋ := by
    apply Int.floor_nonneg.mpr
    positivity
  positivity

lemma roundTo_one_le_100 (x : ℚ) (hx : x ≤ 100) : roundTo 1 x ≤ 100 := by
  unfold roundTo jsRound
  have h : ⌊x * 10 ^ 1 + 1 / 2⌋ ≤ 1000 := by
    have h2 : ⌊x * 10 ^ 1 + 1 / 2⌋ ≤ ⌊(2001 / 2 : ℚ)⌋ := by
      apply Int.floor_mono
      nlinarith
    have h3 : ⌊(2001 / 2 : ℚ)⌋ = 1000 := by norm_num
    omega
  have h4 : ((⌊x * 10 ^ 1 + 1 / 2⌋ : ℤ) : ℚ) ≤ 1000 := by exact_mod_cast h
  rw [div_le_iff₀ (by norm_num : (0 : ℚ) < 10 ^ 1)]
  linarith

/-- Claim C10: applied to the empty set of units, `calculateSystemStats`
returns the fully-defined all-zero statistics record (zero totals,
counts, percentage and average temperature); the average-temperature
division is behind the `length === 0` guard and is never reached. -/
theorem C10_empty_stats :
    calculateSystemStats [] = ⟨0, 0, 0, 0, 0, 0, 0, 0, 0, 0⟩ := rfl

/-- Claim C1: every displayed cost is recomputed from the two energy
buckets as `renewable_kWh * 10 + utility_kWh * 50` (JM$ rates 10 for
solar, 50 for grid), both per session (`SessionInfo`) and at fleet level
(`StatsGrid`); no cost is stored independently: the cost shown is a
function of the two buckets alone. -/
theorem C1_cost_derived :
    (∀ t : TelemetryData, SessionInfo.totalCost t =
      t.session_energy_kwh_solar * 10 + t.session_energy_kwh_grid * 50) ∧
    (∀ s : SystemStats, StatsGrid.totalCostJMD s =
      s.total_solar_energy_kwh * 10 + s.total_grid_energy_kwh * 50) ∧
    (∀ t₁ t₂ : TelemetryData,
      t₁.session_energy_kwh_solar = t₂.session_energy_kwh_solar →
      t₁.session_energy_kwh_grid = t₂.session_energy_kwh_grid →
      SessionInfo.totalCost t₁ = SessionInfo.totalCost t₂) ∧
    (∀ s₁ s₂ : SystemStats,
      s₁.total_solar_energy_kwh = s₂.total_solar_energy_kwh →
      s₁.total_grid_energy_kwh = s₂.total_grid_energy_kwh →
      StatsGrid.totalCostJMD s₁ = StatsGrid.totalCostJMD s₂) := by
  refine ⟨fun t => ?_, fun s => ?_, fun t₁ t₂ h1 h2 => ?_, fun s₁ s₂ h1 h2 => ?_⟩
  · simp [SessionInfo.totalCost, SessionInfo.solarCost, SessionInfo.gridCost,
      SessionInfo.SOLAR_RATE, SessionInfo.GRID_RATE]
  · simp [StatsGrid.totalCostJMD, StatsGrid.solarCostJMD, StatsGrid.gridCostJMD]
  · simp [SessionInfo.totalCost, SessionInfo.solarCost, SessionInfo.gridCost, h1, h2]
  · simp [StatsGrid.totalCostJMD, StatsGrid.solarCostJMD, StatsGrid.gridCostJMD, h1, h2]

/-- Witness for C1 at concrete inputs: a session with 2 kWh solar and
3 kWh grid costs 2*10 + 3*50 JM$, and two records agreeing on the
buckets get the same cost. -/
theorem C1_cost_derived_witness :
    SessionInfo.totalCost ⟨Option.none, 0, 0, 0, 2, 3, 5,
      EnergySource.solar, 0, UnitStatus.charging, Option.none⟩ = 2 * 10 + 3 * 50 ∧
    SessionInfo.totalCost ⟨Option.some "sess_1001", 230, 16, 3680, 2, 3, 5,
      EnergySource.grid, 25, UnitStatus.charging, Option.none⟩ =
      SessionInfo.totalCost ⟨Option.none, 0, 0, 0, 2, 3, 5,
        EnergySource.solar, 0, UnitStatus.charging, Option.none⟩ := by
  exact ⟨C1_cost_derived.1 _, C1_cost_derived.2.2.1 _ _ rfl rfl⟩

/-- Claim C2: the renewable (solar) percentage expression shared by
`calculateSystemStats`, `generateMockData` and `EnergySourceIndicator`
is exactly 0 when the two energy totals sum to 0 (the `total > 0` guard
prevents any division), otherwise equals
`solar / (solar + grid) * 100`, and lies in `[0, 100]`; the 1-decimal
rounding applied before reporting it in the fleet record preserves both
the zero case and the range. -/
theorem C2_solar_percentage (s g : ℚ) (hs : 0 ≤ s) (hg : 0 ≤ g) :
    (s + g = 0 → solarPercentageOf s g = 0) ∧
    (s + g ≠ 0 → solarPercentageOf s g = s / (s + g) * 100) ∧
    0 ≤ solarPercentageOf s g ∧ solarPercentageOf s g ≤ 100 ∧
    0 ≤ roundTo 1 (solarPercentageOf s g) ∧
    roundTo 1 (solarPercentageOf s g) ≤ 100 := by
  by_cases h : 0 < s + g
  · have hval : solarPercentageOf s g = s / (s + g) * 100 := by
      simp [solarPercentageOf, h]
    have hub : s / (s + g) ≤ 1 := by
      rw [div_le_one h]
      linarith
    have hlb : 0 ≤ s / (s + g) := div_nonneg hs h.le
    have h0 : 0 ≤ solarPercentageOf s g := by rw [hval]; linarith
    have h100 : solarPercentageOf s g ≤ 100 := by rw [hval]; linarith
    exact ⟨fun h0' => absurd h0' (by linarith), fun _ => hval, h0, h100,
      roundTo_one_nonneg _ h0, roundTo_one_le_100 _ h100⟩
  · have heq : s + g = 0 := le_antisymm (not_lt.mp h) (by linarith)
    have hval : solarPercentageOf s g = 0 := by
      simp [solarPercentageOf, h]
    refine ⟨fun _ => hval, fun hne => absurd heq hne, ?_, ?_, ?_, ?_⟩
    · rw [hval]
    · rw [hval]; norm_num
    · exact roundTo_one_nonneg _ (by rw [hval])
    · exact roundTo_one_le_100 _ (by rw [hval]; norm_num)

/-- Witness for C2 at solar = 1 kWh, grid = 3 kWh: the percentage is
exactly 25 and all bounds hold. -/
theorem C2_solar_percentage_witness :
    (0 : ℚ) ≤ 1 ∧ (0 : ℚ) ≤ 3 ∧
    (((1 : ℚ) + 3 = 0 → solarPercentageOf 1 3 = 0) ∧
      ((1 : ℚ) + 3 ≠ 0 → solarPercentageOf 1 3 = 1 / (1 + 3) * 100) ∧
      0 ≤ solarPercentageOf 1 3 ∧ solarPercentageOf 1 3 ≤ 100 ∧
      0 ≤ roundTo 1 (solarPercentageOf 1 3) ∧
      roundTo 1 (solarPercentageOf 1 3) ≤ 100) :=
  ⟨by norm_num, by norm_num, C2_solar_percentage 1 3 (by norm_num) (by norm_num)⟩

/-- Claim C3 (the backend power-curve code is absent from `src/`, so the
model follows the spec's §4.2 wording): the power curve returns 0 outside
`charging`, the nominal power below 80% of target, the linear taper
clamped at 20% of nominal on `[0.8, 1.0]`, equals nominal at 0.8 and 20%
of nominal at 1.0, and is monotonically non-increasing on `[0.8, 1.0]`. -/
theorem C3_power_curve (nominal : ℚ) (hn : 0 ≤ nominal) :
    (∀ phase ef, phase ≠ UnitStatus.charging → powerCurve phase ef nominal = 0) ∧
    (∀ ef : ℚ, ef < 4 / 5 → powerCurve UnitStatus.charging ef nominal = nominal) ∧
    (∀ ef : ℚ, 4 / 5 ≤ ef → ef ≤ 1 →
      powerCurve UnitStatus.charging ef nominal =
        max (nominal * (1 - 4 * (ef - 4 / 5))) (nominal / 5)) ∧
    (∀ ef : ℚ, 4 / 5 ≤ ef → ef ≤ 1 →
      nominal / 5 ≤ powerCurve UnitStatus.charging ef nominal) ∧
    powerCurve UnitStatus.charging (4 / 5) nominal = nominal ∧
    powerCurve UnitStatus.charging 1 nominal = nominal / 5 ∧
    (∀ x y : ℚ, 4 / 5 ≤ x → x ≤ y → y ≤ 1 →
      powerCurve UnitStatus.charging y nominal ≤
        powerCurve UnitStatus.charging x nominal) := by
  have hmid : ∀ ef : ℚ, 4 / 5 ≤ ef → ef ≤ 1 →
      powerCurve UnitStatus.charging ef nominal =
        max (nominal * (1 - 4 * (ef - 4 / 5))) (nominal / 5) := by
    intro ef h1 h2
    unfold powerCurve
    rw [if_pos rfl, if_neg (not_lt.mpr h1), if_pos h2]
  refine ⟨fun phase ef h => by simp [powerCurve, h], fun ef h => ?_, hmid,
    fun ef h1 h2 => ?_, ?_, ?_, fun x y hx hxy hy => ?_⟩
  · unfold powerCurve
    rw [if_pos rfl, if_pos h]
  · rw [hmid ef h1 h2]
    exact le_max_right _ _
  · rw [hmid (4 / 5) le_rfl (by norm_num)]
    have : nominal * (1 - 4 * ((4 : ℚ) / 5 - 4 / 5)) = nominal := by ring
    rw [this]
    exact max_eq_left (by linarith)
  · rw [hmid 1 (by norm_num) le_rfl]
    have : nominal * (1 - 4 * ((1 : ℚ) - 4 / 5)) = nominal / 5 := by ring
    rw [this, max_self]
  · rw [hmid x hx (le_trans hxy hy), hmid y (le_trans hx hxy) hy]
    apply max_le_max _ le_rfl
    apply mul_le_mul_of_nonneg_left _ hn
    linarith

/-- Witness for C3 at the spec's scenario nominal power of 7360 W. -/
theorem C3_power_curve_witness :
    (0 : ℚ) ≤ 7360 ∧
    powerCurve UnitStatus.charging (4 / 5) 7360 = 7360 ∧
    powerCurve UnitStatus.charging 1 7360 = 7360 / 5 ∧
    powerCurve UnitStatus.available (1 / 2) 7360 = 0 ∧
    powerCurve UnitStatus.charging (1 / 2) 7360 = 7360 := by
  have h := C3_power_curve 7360 (by norm_num)
  exact ⟨by norm_num, h.2.2.2.2.1, h.2.2.2.2.2.1,
    h.1 UnitStatus.available (1 / 2) (by simp),
    h.2.1 (1 / 2) (by norm_num)⟩

lemma statsFold_spec (l : List TelemetryData) (acc : StatsAcc) :
    (l.foldl statsStep acc).total_power_w
        = acc.total_power_w + (l.map TelemetryData.power_w).sum ∧
    (l.foldl statsStep acc).total_solar_energy_kwh
        = acc.total_solar_energy_kwh
          + (l.map TelemetryData.session_energy_kwh_solar).sum ∧
    (l.foldl statsStep acc).total_grid_energy_kwh
        = acc.total_grid_energy_kwh
          + (l.map TelemetryData.session_energy_kwh_grid).sum ∧
    (l.foldl statsStep acc).total_temperature_c
        = acc.total_temperature_c + (l.map TelemetryData.temperature_c).sum ∧
    (l.foldl statsStep acc).active_sessions
        = acc.active_sessions + l.countP (fun t => sessionTruthy t) ∧
    (l.foldl statsStep acc).available_units
        = acc.available_units
          + l.countP (fun t => decide (t.status = UnitStatus.available)) ∧
    (l.foldl statsStep acc).charging_units
        = acc.charging_units
          + l.countP (fun t => decide (t.status = UnitStatus.charging)) ∧
    (l.foldl statsStep acc).faulted_units
        = acc.faulted_units
          + l.countP (fun t => decide (t.status = UnitStatus.faulted)) := by
  induction l generalizing acc with
  | nil => simp
  | cons t ts ih =>
    obtain ⟨h1, h2, h3, h4, h5, h6, h7, h8⟩ := ih (statsStep acc t)
    simp only [List.foldl_cons, List.map_cons, List.sum_cons, List.countP_cons] at *
    refine ⟨?_, ?_, ?_, ?_, ?_, ?_, ?_, ?_⟩
    · rw [h1]; simp [statsStep]; ring
    · rw [h2]; simp [statsStep]; ring
    · rw [h3]; simp [statsStep]; ring
    · rw [h4]; simp [statsStep]; ring
    · rw [h5]; simp [statsStep]; ring
    · rw [h6]; simp [statsStep]; ring
    · rw [h7]; simp [statsStep]; ring
    · rw [h8]; simp [statsStep]; ring

/-- Instances of `statsFold_spec` at the initial accumulator: the
components of the `reduce` result are plain sums and counts over the
telemetry list. -/
lemma statsFold_init (l : List TelemetryData) :
    (l.foldl statsStep initAcc).total_power_w
        = (l.map TelemetryData.power_w).sum ∧
    (l.foldl statsStep initAcc).total_solar_energy_kwh
        = (l.map TelemetryData.session_energy_kwh_solar).sum ∧
    (l.foldl statsStep initAcc).total_grid_energy_kwh
        = (l.map TelemetryData.session_energy_kwh_grid).sum ∧
    (l.foldl statsStep initAcc).total_temperature_c
        = (l.map TelemetryData.temperature_c).sum ∧
    (l.foldl statsStep initAcc).active_sessions
        = l.countP (fun t => sessionTruthy t) ∧
    (l.foldl statsStep initAcc).available_units
        = l.countP (fun t => decide (t.status = UnitStatus.available)) ∧
    (l.foldl statsStep initAcc).charging_units
        = l.countP (fun t => decide (t.status = UnitStatus.charging)) ∧
    (l.foldl statsStep initAcc).faulted_units
        = l.countP (fun t => decide (t.status = UnitStatus.faulted)) := by
  obtain ⟨h1, h2, h3, h4, h5, h6, h7, h8⟩ := statsFold_spec l initAcc
  refine ⟨?_, ?_, ?_, ?_, ?_, ?_, ?_, ?_⟩ <;>
    first
    | (rw [h1]; simp [initAcc])
    | (rw [h2]; simp [initAcc])
    | (rw [h3]; simp [initAcc])
    | (rw [h4]; simp [initAcc])
    | (rw [h5]; simp [initAcc])
    | (rw [h6]; simp [initAcc])
    | (rw [h7]; simp [initAcc])
    | (rw [h8]; simp [initAcc])

/-- Concrete single-unit fleet for the C5 counterexample: a unit whose
instantaneous power is 0.5 W. -/
def c5Unit : TelemetryData :=
  ⟨Option.none, 0, 0, 1 / 2, 0, 0, 0, EnergySource.none, 0,
    UnitStatus.available, Option.none⟩

/-- Counterexample to C5 as stated: for a fleet of one unit with power
0.5 W, `calculateSystemStats` reports `total_power_w = 1` (JS
`Math.round` of the sum), which differs from the sum of the units' power
values, 0.5. -/
theorem C5_counterexample :
    (calculateSystemStats [c5Unit]).total_power_w = 1 ∧
    (([c5Unit] : List TelemetryData).map TelemetryData.power_w).sum = 1 / 2 ∧
    (1 : ℚ) ≠ 1 / 2 := by
  refine ⟨?_, by simp [c5Unit], by norm_num⟩
  norm_num [calculateSystemStats, statsStep, initAcc, jsRound, c5Unit, sessionTruthy]

/-- Claim C5 as amended: `calculateSystemStats` is a pure reduction of
the telemetry list in which `total_power_w` is the sum of the power
values rounded to the nearest watt (JS `Math.round`), the solar/grid and
total energies are the corresponding sums rounded to 4 decimal places,
and the four counters equal exactly the number of units whose telemetry
has that status (active sessions counting units whose `session_id` is a
non-empty string). -/
theorem C5_stats_reduction (units : List TelemetryData) :
    (calculateSystemStats units).total_power_w
        = (jsRound (units.map TelemetryData.power_w).sum : ℚ) ∧
    (calculateSystemStats units).total_solar_energy_kwh
        = roundTo 4 (units.map TelemetryData.session_energy_kwh_solar).sum ∧
    (calculateSystemStats units).total_grid_energy_kwh
        = roundTo 4 (units.map TelemetryData.session_energy_kwh_grid).sum ∧
    (calculateSystemStats units).total_energy_kwh
        = roundTo 4 ((units.map TelemetryData.session_energy_kwh_solar).sum
            + (units.map TelemetryData.session_energy_kwh_grid).sum) ∧
    (calculateSystemStats units).active_sessions
        = units.countP (fun t => sessionTruthy t) ∧
    (calculateSystemStats units).available_units
        = units.countP (fun t => decide (t.status = UnitStatus.available)) ∧
    (calculateSystemStats units).charging_units
        = units.countP (fun t => decide (t.status = UnitStatus.charging)) ∧
    (calculateSystemStats units).faulted_units
        = units.countP (fun t => decide (t.status = UnitStatus.faulted)) := by
  match units with
  | [] =>
    simp [calculateSystemStats, jsRound_zero, roundTo_zero]
  | u :: us =>
    obtain ⟨h1, h2, h3, h4, h5, h6, h7, h8⟩ := statsFold_init (u :: us)
    have hne : ((u :: us : List TelemetryData).isEmpty) = false := rfl
    unfold calculateSystemStats
    rw [hne]
    simp only [Bool.false_eq_true, if_false]
    exact ⟨by rw [h1], by rw [h2], by rw [h3], by rw [h2, h3], by rw [h5],
      by rw [h6], by rw [h7], by rw [h8]⟩

/-- Concrete single-unit fleet for the C6 counterexample: a unit whose
temperature is 0.05 degrees. -/
def c6Unit : TelemetryData :=
  ⟨Option.none, 0, 0, 0, 0, 0, 0, EnergySource.none, 1 / 20,
    UnitStatus.available, Option.none⟩

/-- Counterexample to C6 as stated: for a fleet of one unit at 0.05
degrees, `calculateSystemStats` reports `avg_temperature_c = 0.1` (the
mean passed through JS `toFixed(1)`), which is not the arithmetic mean
0.05. -/
theorem C6_counterexample :
    (calculateSystemStats [c6Unit]).avg_temperature_c = 1 / 10 ∧
    (([c6Unit] : List TelemetryData).map TelemetryData.temperature_c).sum
        / (([c6Unit] : List TelemetryData).length : ℚ) = 1 / 20 ∧
    (1 / 10 : ℚ) ≠ 1 / 20 := by
  refine ⟨?_, by simp [c6Unit], by norm_num⟩
  norm_num [calculateSystemStats, statsStep, initAcc, jsRound, roundTo, c6Unit,
    sessionTruthy]

/-- Claim C6 as amended: for every non-empty telemetry list,
`calculateSystemStats` reports `avg_temperature_c` equal to the
arithmetic mean of the units' temperatures rounded to one decimal place
(JS `toFixed(1)`). (The demo Firebase mock's stats instead carry an
independent random value in this field.) -/
theorem C6_avg_rounded (units : List TelemetryData) (h : units ≠ []) :
    (calculateSystemStats units).avg_temperature_c
      = roundTo 1 ((units.map TelemetryData.temperature_c).sum
          / (units.length : ℚ)) := by
  obtain ⟨h1, h2, h3, h4, h5, h6, h7, h8⟩ := statsFold_init units
  have hne : units.isEmpty = false := by
    cases units with
    | nil => exact absurd rfl h
    | cons u us => rfl
  unfold calculateSystemStats
  rw [hne]
  simp only [Bool.false_eq_true, if_false]
  rw [h4]

/-- Concrete two-unit fleet for the C6 witness (20 and 21 degrees). -/
def c6wList : List TelemetryData :=
  [⟨Option.none, 0, 0, 0, 0, 0, 0, EnergySource.none, 20,
      UnitStatus.available, Option.none⟩,
    ⟨Option.none, 0, 0, 0, 0, 0, 0, EnergySource.none, 21,
      UnitStatus.available, Option.none⟩]

/-- Witness for C6 as amended at a concrete two-unit fleet (mean 20.5,
unchanged by the 1-decimal rounding). -/
theorem C6_avg_rounded_witness :
    c6wList ≠ [] ∧
    (calculateSystemStats c6wList).avg_temperature_c
      = roundTo 1 ((c6wList.map TelemetryData.temperature_c).sum
          / (c6wList.length : ℚ)) :=
  ⟨by simp [c6wList], C6_avg_rounded c6wList (by simp [c6wList])⟩

/-- Claim C4: for every random draw of the mock generator whose scenario
pick lies in `[0, 1)` (as `Math.random()` guarantees), the produced
telemetry has one of the five lifecycle statuses, and its status is
`available` exactly when it carries no session identifier. -/
theorem C4_status_session (n0 n2 : ℕ) (d : MockDraws)
    (h0 : 0 ≤ d.rScen) (h1 : d.rScen < 1) :
    ((generateTelemetry (scens n0 n2) d).status = UnitStatus.available ∨
      (generateTelemetry (scens n0 n2) d).status = UnitStatus.preparing ∨
      (generateTelemetry (scens n0 n2) d).status = UnitStatus.charging ∨
      (generateTelemetry (scens n0 n2) d).status = UnitStatus.finishing ∨
      (generateTelemetry (scens n0 n2) d).status = UnitStatus.faulted) ∧
    ((generateTelemetry (scens n0 n2) d).status = UnitStatus.available ↔
      (generateTelemetry (scens n0 n2) d).session_id = Option.none) := by
  constructor
  · cases hx : (generateTelemetry (scens n0 n2) d).status <;> simp
  · have hlen : (scens n0 n2).length = 3 := rfl
    have hk0 : (0 : ℤ) ≤ ⌊d.rScen * (((3 : ℕ)) : ℚ)⌋ := by
      apply Int.floor_nonneg.mpr
      positivity
    have hk3 : ⌊d.rScen * (((3 : ℕ)) : ℚ)⌋ < 3 := by
      apply Int.floor_lt.mpr
      push_cast
      nlinarith
    have hcases : jsFloorIdx d.rScen 3 = 0 ∨ jsFloorIdx d.rScen 3 = 1 ∨
        jsFloorIdx d.rScen 3 = 2 := by
      unfold jsFloorIdx
      omega
    rcases hcases with hc | hc | hc <;>
      simp [generateTelemetry, pickedScen, scens, hlen, hc]

/-- Witness for C4 at the all-zero draw (scenario 0, `charging`, with a
session id present). -/
theorem C4_status_session_witness :
    (0 : ℚ) ≤ (⟨0, 0, 0, 0, 0, 0, 0⟩ : MockDraws).rScen ∧
    (⟨0, 0, 0, 0, 0, 0, 0⟩ : MockDraws).rScen < 1 ∧
    (((generateTelemetry (scens 0 0) ⟨0, 0, 0, 0, 0, 0, 0⟩).status
          = UnitStatus.available ∨
        (generateTelemetry (scens 0 0) ⟨0, 0, 0, 0, 0, 0, 0⟩).status
          = UnitStatus.preparing ∨
        (generateTelemetry (scens 0 0) ⟨0, 0, 0, 0, 0, 0, 0⟩).status
          = UnitStatus.charging ∨
        (generateTelemetry (scens 0 0) ⟨0, 0, 0, 0, 0, 0, 0⟩).status
          = UnitStatus.finishing ∨
        (generateTelemetry (scens 0 0) ⟨0, 0, 0, 0, 0, 0, 0⟩).status
          = UnitStatus.faulted) ∧
      ((generateTelemetry (scens 0 0) ⟨0, 0, 0, 0, 0, 0, 0⟩).status
          = UnitStatus.available ↔
        (generateTelemetry (scens 0 0) ⟨0, 0, 0, 0, 0, 0, 0⟩).session_id
          = Option.none)) :=
  ⟨le_refl 0, by norm_num, C4_status_session 0 0 _ (le_refl 0) (by norm_num)⟩

/-- Concrete incoming websocket record for the C7 counterexample: no
`unit_id` field, a `sess_`-style session id. -/
def c7Data : TelemetryData :=
  ⟨Option.some "sess_1234", 0, 0, 0, 0, 0, 0, EnergySource.none, 0,
    UnitStatus.charging, Option.none⟩

/-- Counterexample to C7 as stated: for a record with no `unit_id` and
session id "sess_1234", the consumer keys the fleet state by a unit id
that rotates with the wall clock (`evse_unit_02` at t = 5000 ms,
`evse_unit_03` at t = 10000 ms) — the rotating fallback is applied. -/
theorem C7_counterexample :
    deriveUnitId c7Data 5000 = "evse_unit_02" ∧
    deriveUnitId c7Data 10000 = "evse_unit_03" ∧
    deriveUnitId c7Data 5000 ≠ deriveUnitId c7Data 10000 := by
  refine ⟨by decide, by decide, by decide⟩

/-- Helper for the websocket consumer: when the carried `unit_id` is
falsy (absent or empty), the initializer `data.unit_id || 'evse_unit_01'`
yields the default. -/
lemma baseUnitId_of_falsy (o : Option String) (h : optFalsy o = true) :
    baseUnitId o = "evse_unit_01" := by
  cases o with
  | none => rfl
  | some s =>
    simp only [optFalsy, beq_iff_eq] at h
    simp [baseUnitId, h]

/-- Claim C7 as amended, covering every branch of the consumer's
unit-identification: (1) a non-empty carried `unit_id` keys the fleet
state; with `unit_id` falsy and a non-empty session id, (2) a session id
splitting to an `evse`/`unit` prefix yields the extracted
`evse_unit_<third part>`, (3) a `sess`-style session id yields the unit
rotating every 5 seconds from the current time, (4) a falsy session id
yields the default `evse_unit_01`, and (5) any other session id shape
(fewer than two underscore parts, or a first part that is neither the
`evse`/`unit` pair nor `sess`) also yields the default. -/
theorem C7_unit_id_keying (data : TelemetryData) (nowMs : ℕ) :
    (∀ u : String, data.unit_id = Option.some u → u ≠ "" →
      deriveUnitId data nowMs = u) ∧
    (∀ s : String, optFalsy data.unit_id = true →
      data.session_id = Option.some s → s ≠ "" →
      2 ≤ (splitOnUnderscore s).length →
      (splitOnUnderscore s).getD 0 "" = "evse" →
      (splitOnUnderscore s).getD 1 "" = "unit" →
      deriveUnitId data nowMs
        = "evse_unit_" ++ (splitOnUnderscore s).getD 2 "undefined") ∧
    (∀ s : String, optFalsy data.unit_id = true →
      data.session_id = Option.some s → s ≠ "" →
      2 ≤ (splitOnUnderscore s).length →
      (splitOnUnderscore s).getD 0 "" = "sess" →
      deriveUnitId data nowMs = "evse_unit_" ++ pad2 (nowMs / 5000 % 3 + 1)) ∧
    (optFalsy data.unit_id = true → sessionTruthy data = false →
      deriveUnitId data nowMs = "evse_unit_01") ∧
    (∀ s : String, optFalsy data.unit_id = true →
      data.session_id = Option.some s → s ≠ "" →
      ((splitOnUnderscore s).length < 2 ∨
        (¬((splitOnUnderscore s).getD 0 "" = "evse" ∧
            (splitOnUnderscore s).getD 1 "" = "unit") ∧
          (splitOnUnderscore s).getD 0 "" ≠ "sess")) →
      deriveUnitId data nowMs = "evse_unit_01") := by
  refine ⟨fun u hu hne => ?_, fun s hf hs hne hlen h0 h1 => ?_,
    fun s hf hs hne hlen h0 => ?_, fun hf hsf => ?_,
    fun s hf hs hne hcond => ?_⟩
  · unfold deriveUnitId optFalsy baseUnitId
    rw [hu]
    simp [hne]
  · have htr : sessionTruthy data = true := by simp [sessionTruthy, hs, hne]
    unfold deriveUnitId
    rw [hf, htr, hs]
    simp only [Bool.and_self, Option.getD_some]
    rw [if_pos trivial, if_pos hlen, if_pos ⟨h0, h1⟩, h0, h1]
    rfl
  · have htr : sessionTruthy data = true := by simp [sessionTruthy, hs, hne]
    have hnevse : ¬((splitOnUnderscore s).getD 0 "" = "evse" ∧
        (splitOnUnderscore s).getD 1 "" = "unit") := by
      rintro ⟨he, -⟩
      rw [h0] at he
      exact absurd he (by decide)
    unfold deriveUnitId
    rw [hf, htr, hs]
    simp only [Bool.and_self, Option.getD_some]
    rw [if_pos trivial, if_pos hlen, if_neg hnevse, if_pos h0]
  · unfold deriveUnitId
    rw [hf, hsf]
    simp only [Bool.and_false, Bool.false_eq_true, if_false]
    exact baseUnitId_of_falsy _ hf
  · have htr : sessionTruthy data = true := by simp [sessionTruthy, hs, hne]
    unfold deriveUnitId
    rw [hf, htr, hs]
    simp only [Bool.and_self, Option.getD_some]
    rw [if_pos trivial]
    rcases hcond with hlt | ⟨hnevse, hnsess⟩
    · rw [if_neg (by omega : ¬ 2 ≤ (splitOnUnderscore s).length)]
      exact baseUnitId_of_falsy _ hf
    · by_cases hlen : 2 ≤ (splitOnUnderscore s).length
      · rw [if_pos hlen, if_neg hnevse, if_neg hnsess]
        exact baseUnitId_of_falsy _ hf
      · rw [if_neg hlen]
        exact baseUnitId_of_falsy _ hf

/-- Concrete record carrying `unit_id = "evse_unit_07"` for the C7
witness. -/
def c7wCarry : TelemetryData :=
  ⟨Option.some "sess_9", 0, 0, 0, 0, 0, 0, EnergySource.none, 0,
    UnitStatus.charging, Option.some "evse_unit_07"⟩

/-- Concrete record with no `unit_id` and an `evse_unit_`-prefixed
session id for the C7 witness. -/
def c7wPrefix : TelemetryData :=
  ⟨Option.some "evse_unit_03_sess_42", 0, 0, 0, 0, 0, 0, EnergySource.none,
    0, UnitStatus.charging, Option.none⟩

/-- Concrete record with neither `unit_id` nor `session_id` for the C7
witness. -/
def c7wNone : TelemetryData :=
  ⟨Option.none, 0, 0, 0, 0, 0, 0, EnergySource.none, 0,
    UnitStatus.available, Option.none⟩

/-- Concrete record with no `unit_id` and an underscore-free session id
for the C7 witness. -/
def c7wPlain : TelemetryData :=
  ⟨Option.some "job42", 0, 0, 0, 0, 0, 0, EnergySource.none, 0,
    UnitStatus.charging, Option.none⟩

/-- Witness for C7 as amended, exercising all five branches at concrete
records: a carried id is kept, an `evse_unit_03_...` session id has its
prefix extracted, a `sess_` id rotates with the clock, and a missing or
unparseable session id falls back to the default. -/
theorem C7_unit_id_keying_witness :
    deriveUnitId c7wCarry 12345 = "evse_unit_07" ∧
    deriveUnitId c7wPrefix 0 = "evse_unit_03" ∧
    deriveUnitId c7Data 5000 = "evse_unit_02" ∧
    deriveUnitId c7wNone 0 = "evse_unit_01" ∧
    deriveUnitId c7wPlain 0 = "evse_unit_01" := by
  refine ⟨?_, ?_, ?_, ?_, ?_⟩
  · exact (C7_unit_id_keying c7wCarry 12345).1 "evse_unit_07" rfl (by decide)
  · have h := (C7_unit_id_keying c7wPrefix 0).2.1 "evse_unit_03_sess_42"
      (by decide) rfl (by decide) (by decide) (by decide) (by decide)
    rw [h]
    decide
  · have h := (C7_unit_id_keying c7Data 5000).2.2.1 "sess_1234"
      (by decide) rfl (by decide) (by decide) (by decide)
    rw [h]
    decide
  · exact (C7_unit_id_keying c7wNone 0).2.2.2.1 (by decide) (by decide)
  · exact (C7_unit_id_keying c7wPlain 0).2.2.2.2 "job42" (by decide) rfl
      (by decide) (Or.inl (by decide))

/-- Random draws for the C8 counterexample differing only in the
source-pick draw. -/
def c8dA : MockDraws := ⟨0, 0, 0, 0, 0, 0, 0⟩

/-- Second draw set for the C8 counterexample. -/
def c8dB : MockDraws := ⟨0, 0, 0, 1 / 2, 0, 0, 0⟩

/-- Counterexample to C8 as stated: two runs of the generator under the
same scenario (and with no hour-of-day or fleet-load input at all)
select different energy sources — `solar` versus `grid` — because the
source is picked by a random draw. -/
theorem C8_counterexample :
    (generateTelemetry (scens 0 0) c8dA).energy_source = EnergySource.solar ∧
    (generateTelemetry (scens 0 0) c8dB).energy_source = EnergySource.grid ∧
    (generateTelemetry (scens 0 0) c8dA).energy_source
      ≠ (generateTelemetry (scens 0 0) c8dB).energy_source := by
  have hA : (generateTelemetry (scens 0 0) c8dA).energy_source
      = EnergySource.solar := by
    norm_num [generateTelemetry, pickedSource, pickedScen, jsFloorIdx, scens, c8dA]
  have hB : (generateTelemetry (scens 0 0) c8dB).energy_source
      = EnergySource.grid := by
    norm_num [generateTelemetry, pickedSource, pickedScen, jsFloorIdx, scens, c8dB]
  refine ⟨hA, hB, ?_⟩
  rw [hA, hB]
  simp

/-- Claim C8 as amended: the selected energy source is determined by the
two random draws alone (scenario pick and source pick); two runs with
identical draws select the same source — hour of day and fleet load are
not inputs of the selection, and randomness does influence it. -/
theorem C8_source_from_draws (scs : List Scen) (d d2 : MockDraws)
    (h1 : d.rScen = d2.rScen) (h2 : d.rSource = d2.rSource) :
    (generateTelemetry scs d).energy_source
      = (generateTelemetry scs d2).energy_source := by
  simp only [generateTelemetry]
  unfold pickedSource pickedScen jsFloorIdx
  rw [h1, h2]

/-- Witness for C8 as amended: two draw sets agreeing on the scenario
and source picks but differing in the voltage draw select the same
source. -/
theorem C8_source_from_draws_witness :
    (⟨0, 0, 0, 0, 0, 0, 0⟩ : MockDraws).rScen
      = (⟨0, 1 / 2, 0, 0, 0, 0, 0⟩ : MockDraws).rScen ∧
    (⟨0, 0, 0, 0, 0, 0, 0⟩ : MockDraws).rSource
      = (⟨0, 1 / 2, 0, 0, 0, 0, 0⟩ : MockDraws).rSource ∧
    (generateTelemetry (scens 0 0) ⟨0, 0, 0, 0, 0, 0, 0⟩).energy_source
      = (generateTelemetry (scens 0 0) ⟨0, 1 / 2, 0, 0, 0, 0, 0⟩).energy_source :=
  ⟨rfl, rfl, C8_source_from_draws (scens 0 0) _ _ rfl rfl⟩

/-- Random draws for the C9 counterexample: charging scenario, grid
source, voltage 230 V, current 23.5 A, session time 0.1 h. -/
def c9d : MockDraws := ⟨0, 1 / 2, 1 / 2, 1 / 2, 0, 0, 0⟩

/-- Counterexample to C9 as stated: with a grid source and session
energy `sessionTime * power/1000 = 0.5405` kWh, the grid bucket receives
only 80% of it (0.4324 kWh), not the full amount the claim requires for
the bucket matching the active source. -/
theorem C9_counterexample :
    (generateTelemetry (scens 0 0) c9d).energy_source = EnergySource.grid ∧
    (generateTelemetry (scens 0 0) c9d).session_energy_kwh_grid = 1081 / 2500 ∧
    mockSessionTime c9d * mockEnergyRate (scens 0 0) c9d = 1081 / 2000 ∧
    (1081 / 2500 : ℚ) ≠ 1081 / 2000 := by
  refine ⟨?_, ?_, ?_, by norm_num⟩
  · norm_num [generateTelemetry, pickedSource, pickedScen, jsFloorIdx, scens, c9d]
  · norm_num [generateTelemetry, mockGridRaw, pickedSource, pickedScen, jsFloorIdx,
      scens, mockSessionTime, mockEnergyRate, mockPower, mockVoltage, mockCurrent,
      roundTo, jsRound, c9d]
  · norm_num [mockSessionTime, mockEnergyRate, mockPower, mockVoltage, mockCurrent,
      pickedScen, jsFloorIdx, scens, c9d]

/-- Claim C9 as amended: with session energy
`e = sessionTime * power/1000`, a solar source puts the full `e` in the
solar bucket plus an extra 10% of `e` in the grid bucket; a grid source
splits `e` 20% solar / 80% grid; with no source both buckets are zero;
each reported bucket is rounded to 4 decimals separately and the
reported total is the rounded sum of the unrounded buckets. -/
theorem C9_split_policy (scs : List Scen) (d : MockDraws) :
    (pickedSource scs d = EnergySource.solar →
      (generateTelemetry scs d).session_energy_kwh_solar
          = roundTo 4 (mockSessionTime d * mockEnergyRate scs d) ∧
      (generateTelemetry scs d).session_energy_kwh_grid
          = roundTo 4 (mockSessionTime d * mockEnergyRate scs d * (1 / 10))) ∧
    (pickedSource scs d = EnergySource.grid →
      (generateTelemetry scs d).session_energy_kwh_solar
          = roundTo 4 (mockSessionTime d * mockEnergyRate scs d * (1 / 5)) ∧
      (generateTelemetry scs d).session_energy_kwh_grid
          = roundTo 4 (mockSessionTime d * mockEnergyRate scs d * (4 / 5))) ∧
    (pickedSource scs d = EnergySource.none →
      (generateTelemetry scs d).session_energy_kwh_solar = 0 ∧
      (generateTelemetry scs d).session_energy_kwh_grid = 0 ∧
      (generateTelemetry scs d).session_total_energy_kwh = 0) ∧
    (generateTelemetry scs d).session_total_energy_kwh
      = roundTo 4 (mockSolarRaw scs d + mockGridRaw scs d) := by
  refine ⟨fun h => ?_, fun h => ?_, fun h => ?_, rfl⟩
  · constructor <;> simp [generateTelemetry, mockSolarRaw, mockGridRaw, h]
  · constructor <;> simp [generateTelemetry, mockSolarRaw, mockGridRaw, h]
  · refine ⟨?_, ?_, ?_⟩ <;>
      simp [generateTelemetry, mockSolarRaw, mockGridRaw, h, roundTo_zero]

/-- Witness for C9 as amended at a concrete solar-source draw: the solar
bucket holds the full rounded session energy and the grid bucket the
rounded 10% share. -/
theorem C9_split_policy_witness :
    pickedSource (scens 0 0) ⟨0, 1 / 2, 1 / 2, 0, 0, 0, 0⟩
        = EnergySource.solar ∧
    (generateTelemetry (scens 0 0)
        ⟨0, 1 / 2, 1 / 2, 0, 0, 0, 0⟩).session_energy_kwh_solar
      = roundTo 4 (mockSessionTime ⟨0, 1 / 2, 1 / 2, 0, 0, 0, 0⟩
          * mockEnergyRate (scens 0 0) ⟨0, 1 / 2, 1 / 2, 0, 0, 0, 0⟩) ∧
    (generateTelemetry (scens 0 0)
        ⟨0, 1 / 2, 1 / 2, 0, 0, 0, 0⟩).session_energy_kwh_grid
      = roundTo 4 (mockSessionTime ⟨0, 1 / 2, 1 / 2, 0, 0, 0, 0⟩
          * mockEnergyRate (scens 0 0) ⟨0, 1 / 2, 1 / 2, 0, 0, 0, 0⟩
          * (1 / 10)) := by
  have hsrc : pickedSource (scens 0 0) ⟨0, 1 / 2, 1 / 2, 0, 0, 0, 0⟩
      = EnergySource.solar := by
    norm_num [pickedSource, pickedScen, jsFloorIdx, scens]
  have h := (C9_split_policy (scens 0 0) ⟨0, 1 / 2, 1 / 2, 0, 0, 0, 0⟩).1 hsrc
  exact ⟨hsrc, h.1, h.2⟩

end SolarRally
